import Mathlib

/-!
Verification of the common-go library against its specification.

The Go sources are shallowly embedded: pure computations become Lean
functions, HTTP handlers become functions from the request data they read
(headers, parsed token claims) to an explicit result value recording the
HTTP status and client-visible message, and Go `error` returns become
`Option`/`Except` values.  Machine integers are modelled as `Int` with an
explicit wrap at 2 to the 64th power where the source performs native
integer arithmetic.
-/

namespace GoErrors

/-- Go type `ErrorCode string` from the errors package. -/
abbrev ErrorCode := String

/-- Go struct `AppError`.  The wrapped cause `Err error` is modelled as an
optional message string; `nil` becomes `none`. -/
structure AppError where
  Code : ErrorCode
  Message : String
  Details : String
  HTTPStatus : Nat
  Err : Option String
  deriving DecidableEq, Repr

def ErrCodeInvalidInput : ErrorCode := "INVALID_INPUT"
def ErrCodeMissingField : ErrorCode := "MISSING_FIELD"
def ErrCodeInvalidFormat : ErrorCode := "INVALID_FORMAT"
def ErrCodeValueTooLong : ErrorCode := "VALUE_TOO_LONG"
def ErrCodeValueTooShort : ErrorCode := "VALUE_TOO_SHORT"
def ErrCodeInternal : ErrorCode := "INTERNAL_ERROR"
def ErrCodeServiceUnavailable : ErrorCode := "SERVICE_UNAVAILABLE"
def ErrCodeDatabaseError : ErrorCode := "DATABASE_ERROR"
def ErrCodeNetworkError : ErrorCode := "NETWORK_ERROR"
def ErrCodeTimeout : ErrorCode := "TIMEOUT"
def ErrCodeUnauthorized : ErrorCode := "UNAUTHORIZED"
def ErrCodeForbidden : ErrorCode := "FORBIDDEN"
def ErrCodeRateLimit : ErrorCode := "RATE_LIMIT_EXCEEDED"
def ErrCodeExternalService : ErrorCode := "EXTERNAL_SERVICE_ERROR"
def ErrCodeBusinessRule : ErrorCode := "BUSINESS_RULE_VIOLATION"
def ErrCodeDuplicateEntry : ErrorCode := "DUPLICATE_ENTRY"
def ErrCodeNotFound : ErrorCode := "NOT_FOUND"

def MsgInvalidInput : String := "invalid input provided"
def MsgMissingField : String := "missing required field"
def MsgInvalidFormat : String := "invalid format"
def MsgValueTooLong : String := "value exceeds maximum length"
def MsgValueTooShort : String := "value is too short"
def MsgInternal : String := "internal server error"
def MsgServiceUnavailable : String := "service temporarily unavailable"
def MsgDatabaseError : String := "database operation failed"
def MsgNetworkError : String := "network operation failed"
def MsgTimeout : String := "operation timed out"
def MsgUnauthorized : String := "unauthorized access"
def MsgForbidden : String := "access forbidden"
def MsgRateLimit : String := "rate limit exceeded"
def MsgExternalService : String := "external service error"
def MsgBusinessRule : String := "business rule violation"
def MsgDuplicateEntry : String := "entry already exists"
def MsgNotFound : String := "resource not found"

/-- The seventeen error-code constants declared in common_codes.go. -/
def recognizedCodes : List ErrorCode :=
  [ErrCodeInvalidInput, ErrCodeMissingField, ErrCodeInvalidFormat,
   ErrCodeValueTooLong, ErrCodeValueTooShort, ErrCodeInternal,
   ErrCodeServiceUnavailable, ErrCodeDatabaseError, ErrCodeNetworkError,
   ErrCodeTimeout, ErrCodeUnauthorized, ErrCodeForbidden, ErrCodeRateLimit,
   ErrCodeExternalService, ErrCodeBusinessRule, ErrCodeDuplicateEntry,
   ErrCodeNotFound]

/-- Embeds `getHTTPStatus` (errors package): the Go `switch` becomes a
chain of conditionals in the same case order, with the same 500 default. -/
def getHTTPStatus (code : ErrorCode) : Nat :=
  if code = ErrCodeInvalidInput ∨ code = ErrCodeMissingField ∨
     code = ErrCodeInvalidFormat ∨ code = ErrCodeValueTooLong ∨
     code = ErrCodeValueTooShort then 400
  else if code = ErrCodeBusinessRule ∨ code = ErrCodeDuplicateEntry then 409
  else if code = ErrCodeNotFound then 404
  else if code = ErrCodeUnauthorized then 401
  else if code = ErrCodeForbidden then 403
  else if code = ErrCodeRateLimit then 429
  else if code = ErrCodeServiceUnavailable ∨ code = ErrCodeExternalService then 503
  else if code = ErrCodeDatabaseError ∨ code = ErrCodeNetworkError ∨
          code = ErrCodeTimeout ∨ code = ErrCodeInternal then 500
  else 500

/-- Embeds `getBaseMessage` (common_messages.go): Go `switch` on the code
with default `MsgInternal`. -/
def getBaseMessage (code : ErrorCode) : String :=
  if code = ErrCodeInvalidInput then MsgInvalidInput
  else if code = ErrCodeMissingField then MsgMissingField
  else if code = ErrCodeInvalidFormat then MsgInvalidFormat
  else if code = ErrCodeValueTooLong then MsgValueTooLong
  else if code = ErrCodeValueTooShort then MsgValueTooShort
  else if code = ErrCodeBusinessRule then MsgBusinessRule
  else if code = ErrCodeDuplicateEntry then MsgDuplicateEntry
  else if code = ErrCodeNotFound then MsgNotFound
  else if code = ErrCodeUnauthorized then MsgUnauthorized
  else if code = ErrCodeForbidden then MsgForbidden
  else if code = ErrCodeInternal then MsgInternal
  else if code = ErrCodeServiceUnavailable then MsgServiceUnavailable
  else if code = ErrCodeDatabaseError then MsgDatabaseError
  else if code = ErrCodeNetworkError then MsgNetworkError
  else if code = ErrCodeTimeout then MsgTimeout
  else if code = ErrCodeExternalService then MsgExternalService
  else if code = ErrCodeRateLimit then MsgRateLimit
  else MsgInternal

/-- Embeds `GetMessage` (common_messages.go). -/
def GetMessage (code : ErrorCode) (context : List String) : String :=
  match context with
  | c :: _ => getBaseMessage code ++ ": " ++ c
  | [] => getBaseMessage code

/-- Embeds `New` (errors package). -/
def New (code : ErrorCode) (message : String) : AppError :=
  { Code := code, Message := message, Details := "",
    HTTPStatus := getHTTPStatus code, Err := none }

/-- Embeds `NewWithDetails`. -/
def NewWithDetails (code : ErrorCode) (message details : String) : AppError :=
  { Code := code, Message := message, Details := details,
    HTTPStatus := getHTTPStatus code, Err := none }

/-- Embeds `Wrap`: wraps an existing (optional) cause. -/
def Wrap (err : Option String) (code : ErrorCode) (message : String) : AppError :=
  { Code := code, Message := message, Details := "",
    HTTPStatus := getHTTPStatus code, Err := err }

/-- Embeds `WrapWithDetails`. -/
def WrapWithDetails (err : Option String) (code : ErrorCode)
    (message details : String) : AppError :=
  { Code := code, Message := message, Details := details,
    HTTPStatus := getHTTPStatus code, Err := err }

/-- Embeds `NewInternalError` (errors package constructor file):
`Wrap(err, ErrCodeInternal, MsgInternal)`. -/
def NewInternalError (err : Option String) : AppError :=
  Wrap err ErrCodeInternal MsgInternal

end GoErrors

namespace Response

/-- A Go `error` value passed to a response constructor: either an
`*AppError` or some other error (carrying only its message). -/
inductive GoErr where
  | app (e : GoErrors.AppError)
  | generic (msg : String)
  deriving DecidableEq

/-- Embeds `GetAppError` (errors package): the type assertion to
`*AppError` succeeds exactly on the `app` branch. -/
def GetAppError : GoErr → Option GoErrors.AppError
  | .app e => some e
  | .generic _ => none

/-- The message of the underlying Go error (its `Error()` string), used by
`NewInternalError` when a plain error is coerced. -/
def goErrMessage : GoErr → String
  | .app e => e.Message
  | .generic msg => msg

/-- Go struct `APIError` (response package). -/
structure APIError where
  code : String
  message : String
  details : String
  deriving DecidableEq

/-- Go struct `APIResponse`, parametric in the payload type.  The
timestamp field (wall-clock time) is outside the embedding. -/
structure APIResponse (δ : Type) where
  success : Bool
  message : Option String
  data : Option δ
  error : Option APIError
  requestID : String
  deriving DecidableEq

/-- Embeds `Success` (response package): `c.JSON(http.StatusOK, ...)`
with `Success:true`, the data, and no error object. -/
def Success {δ : Type} (data : δ) (requestID : String) : Nat × APIResponse δ :=
  (200, { success := true, message := none, data := some data,
          error := none, requestID := requestID })

/-- Embeds `SuccessWithMessage`. -/
def SuccessWithMessage {δ : Type} (message : String) (data : δ)
    (requestID : String) : Nat × APIResponse δ :=
  (200, { success := true, message := some message, data := some data,
          error := none, requestID := requestID })

/-- Embeds `Created`. -/
def Created {δ : Type} (data : δ) (requestID : String) : Nat × APIResponse δ :=
  (201, { success := true, message := none, data := some data,
          error := none, requestID := requestID })

/-- Embeds `Error` (response package): a non-`AppError` input is coerced
through `NewInternalError`; the envelope carries the error object, no
data, and the status derived from the error. -/
def Error {δ : Type} (err : GoErr) (requestID : String) :
    Nat × APIResponse δ :=
  let appErr := match GetAppError err with
    | some e => e
    | none => GoErrors.NewInternalError (some (goErrMessage err))
  (appErr.HTTPStatus,
   { success := false, message := none, data := none,
     error := some { code := appErr.Code, message := appErr.Message,
                     details := appErr.Details },
     requestID := requestID })

/-- Embeds `ErrorWithMessage`: same shape as `Error` but the client
message is replaced by the custom one. -/
def ErrorWithMessage {δ : Type} (err : GoErr) (message : String)
    (requestID : String) : Nat × APIResponse δ :=
  let appErr := match GetAppError err with
    | some e => e
    | none => GoErrors.NewInternalError (some (goErrMessage err))
  (appErr.HTTPStatus,
   { success := false, message := none, data := none,
     error := some { code := appErr.Code, message := message,
                     details := appErr.Details },
     requestID := requestID })

/-- Signed 64-bit wrap of a mathematical integer, the value a Go `int`
holds after native arithmetic on a 64-bit platform. -/
def wrap64 (n : Int) : Int :=
  if n % (2 ^ 64) < 2 ^ 63 then n % (2 ^ 64) else n % (2 ^ 64) - 2 ^ 64

/-- Go addition on `int`. -/
def goAdd (a b : Int) : Int := wrap64 (a + b)

/-- Go subtraction on `int`. -/
def goSub (a b : Int) : Int := wrap64 (a - b)

/-- Go division on `int`: truncated division (Go panics on a zero
divisor; division by zero does not arise below). -/
def goDiv (a b : Int) : Int := wrap64 (Int.tdiv a b)

/-- The `totalPages := (total + pageSize - 1) / pageSize` computation of
`Paginated`, in Go `int` arithmetic. -/
def paginatedTotalPages (total pageSize : Int) : Int :=
  goDiv (goSub (goAdd total pageSize) 1) pageSize

/-- The `pagination` map built by `Paginated`. -/
structure Pagination where
  page : Int
  pageSize : Int
  total : Int
  totalPages : Int
  hasNext : Bool
  hasPrev : Bool
  deriving DecidableEq

/-- The `responseData` map `{items, pagination}` built by `Paginated`. -/
structure PaginatedData (δ : Type) where
  items : δ
  pagination : Pagination
  deriving DecidableEq

/-- Embeds `Paginated` (response package). -/
def Paginated {δ : Type} (data : δ) (page pageSize total : Int)
    (requestID : String) : Nat × APIResponse (PaginatedData δ) :=
  let totalPages := paginatedTotalPages total pageSize
  (200,
   { success := true, message := none,
     data := some
       { items := data,
         pagination :=
           { page := page, pageSize := pageSize, total := total,
             totalPages := totalPages,
             hasNext := decide (page < totalPages),
             hasPrev := decide (page > 1) } },
     error := none, requestID := requestID })

/-- The `data` map built by `Health`: its `status` entry plus the checks
map (the embedded timestamp entry is wall-clock time, outside the
embedding). -/
structure HealthData (γ : Type) where
  status : String
  checks : Option γ
  deriving DecidableEq

/-- Embeds `Health` (response package): the data map is always attached,
no error object is ever built, and the switch on `status` picks
200/success for "healthy" and "ok" and 503/failure otherwise. -/
def Health {γ : Type} (status : String) (checks : Option γ)
    (requestID : String) : Nat × APIResponse (HealthData γ) :=
  let httpStatus : Nat := if status = "healthy" ∨ status = "ok" then 200 else 503
  let success : Bool := if status = "healthy" ∨ status = "ok" then true else false
  (httpStatus,
   { success := success, message := none,
     data := some { status := status, checks := checks },
     error := none, requestID := requestID })

/-- The specification text for the pagination count: the mathematical
ceiling of `total / pageSize` (written from the words of the spec, to be
compared with the computation embedded from the source). -/
def specCeilTotalPages (total pageSize : Int) : Int :=
  Int.ceil ((total : ℚ) / (pageSize : ℚ))

end Response

namespace Middleware

/-- Characters treated as white space by Go strings.TrimSpace (the
Unicode space class restricted to the code points that can occur in the
claims: ASCII spacing plus NEL and NBSP). -/
def isGoSpace (c : Char) : Bool :=
  c == ' ' || c == '\t' || c == '\n' || c == '\x0b' || c == '\x0c' ||
  c == '\r' || c == '\u0085' || c == '\u00A0'

/-- Embeds Go strings.TrimSpace. -/
def goTrimSpace (s : String) : String :=
  ⟨((s.data.dropWhile isGoSpace).reverse.dropWhile isGoSpace).reverse⟩

/-- Splitting a character list at every occurrence of a separator, the
semantics of Go strings.Split with a one-character separator. -/
def splitChars (sep : Char) : List Char → List (List Char)
  | [] => [[]]
  | c :: rest =>
    match splitChars sep rest with
    | [] => [[c]]
    | h :: t => if c = sep then [] :: h :: t else (c :: h) :: t

/-- Embeds Go strings.Split for a one-character separator. -/
def goSplit (sep : Char) (s : String) : List String :=
  (splitChars sep s.data).map (fun l => ⟨l⟩)

/-- Embeds `parseCommaSeparated` (rbac.go): empty input gives the empty
list, otherwise split on commas, trim each part, and keep the non-empty
parts. -/
def parseCommaSeparated (s : String) : List String :=
  if s = "" then []
  else ((goSplit ',' s).map goTrimSpace).filter (fun t => t != "")

/-- A character allowed by `permissionFormatRegex`. -/
def isPermChar (c : Char) : Bool :=
  (('a' ≤ c) && (c ≤ 'z')) || (('0' ≤ c) && (c ≤ '9')) || c == '_' || c == ':'

/-- Embeds `permissionFormatRegex.MatchString`: the anchored pattern
accepts exactly the non-empty strings made of lowercase letters, digits,
underscores and colons. -/
def permissionFormatMatch (s : String) : Bool :=
  !(s.data.isEmpty) && s.data.all isPermChar

/-- The request headers read by the RBAC middleware. -/
structure RbacRequest where
  userID : String
  rolesHeader : String
  permsHeader : String
  deriving DecidableEq

/-- Outcome of one middleware handler: pass the request on, or abort with
an HTTP status and client-visible message (a `reject s m` stands for the
response-package constructor call emitting status `s` and message `m`). -/
inductive MWResult where
  | next
  | reject (status : Nat) (msg : String)
  deriving DecidableEq

/-- Embeds `RequireAuth` (rbac.go): `response.Forbidden` carries 403. -/
def RequireAuth (req : RbacRequest) : MWResult :=
  if goTrimSpace req.userID = "" then .reject 403 "Authentication required"
  else .next

/-- Embeds `RequireAnyRole` (rbac.go). -/
def RequireAnyRole (roles : List String) (req : RbacRequest) : MWResult :=
  if roles = [] then RequireAuth req
  else if goTrimSpace req.userID = "" then
    .reject 403 "Authentication required"
  else if roles.any (fun requiredRole =>
      (parseCommaSeparated (goTrimSpace req.rolesHeader)).any
        (fun userRole => userRole == requiredRole)) then .next
  else .reject 403 "Insufficient permissions: required role not found"

/-- The any-of membership loop of `RequireAnyPermission`, applied to the
already-filtered required and user permission lists. -/
def hasAnyPermission (validRequired validUser : List String) : Bool :=
  validRequired.any (fun requiredPerm =>
    validUser.any (fun userPerm => userPerm == requiredPerm))

/-- The missing-permission loop of `RequireAllPermissions`, applied to
the already-filtered required and user permission lists. -/
def missingPermissions (validRequired validUser : List String) :
    List String :=
  validRequired.filter (fun requiredPerm =>
    !(validUser.any (fun userPerm => userPerm == requiredPerm)))

/-- Embeds `RequireAnyPermission` (rbac.go): empty required list degrades
to `RequireAuth`; otherwise both the parsed user set and the required set
are filtered through the format check before the any-of comparison. -/
def RequireAnyPermission (permissions : List String) (req : RbacRequest) :
    MWResult :=
  if permissions = [] then RequireAuth req
  else if goTrimSpace req.userID = "" then
    .reject 403 "Authentication required"
  else if hasAnyPermission (permissions.filter permissionFormatMatch)
      ((parseCommaSeparated (goTrimSpace req.permsHeader)).filter
        permissionFormatMatch) then .next
  else .reject 403 "Insufficient permissions: required permission not found"

/-- Embeds `RequireAllPermissions` (rbac.go): as above but rejecting when
the filtered required set has an entry missing from the filtered user
set. -/
def RequireAllPermissions (permissions : List String) (req : RbacRequest) :
    MWResult :=
  if permissions = [] then RequireAuth req
  else if goTrimSpace req.userID = "" then
    .reject 403 "Authentication required"
  else if missingPermissions (permissions.filter permissionFormatMatch)
      ((parseCommaSeparated (goTrimSpace req.permsHeader)).filter
        permissionFormatMatch) ≠ [] then
    .reject 403 "Insufficient permissions: missing required permissions"
  else .next

end Middleware

namespace Middleware

/-- Go struct `Auth0Config` (config package). -/
structure Auth0Config where
  Enabled : Bool
  Domain : String
  Audience : String
  deriving DecidableEq

/-- Go struct `Auth0User` (types package). -/
structure Auth0User where
  Sub : String
  Email : String
  Name : String
  deriving DecidableEq

/-- The JWT claims map as read by `validateToken`: each claim is `none`
when absent or when its Go type assertion to string fails; `aud` may be a
string or an array (array entries are modelled as strings). -/
structure TokenClaims where
  aud : Option (String ⊕ List String)
  iss : Option String
  sub : Option String
  name : Option String
  given_name : Option String
  family_name : Option String
  nickname : Option String
  email : Option String
  deriving DecidableEq

/-- Embeds `extractNameFromClaims` (auth0.go): name, then given and
family name, then nickname, else empty. -/
def extractNameFromClaims (claims : TokenClaims) : String :=
  if claims.name.getD "" ≠ "" then claims.name.getD ""
  else
    if claims.given_name.getD "" ≠ "" ∨ claims.family_name.getD "" ≠ "" then
      if claims.given_name.getD "" ≠ "" ∧ claims.family_name.getD "" ≠ "" then
        claims.given_name.getD "" ++ " " ++ claims.family_name.getD ""
      else if claims.given_name.getD "" ≠ "" then claims.given_name.getD ""
      else claims.family_name.getD ""
    else if claims.nickname.getD "" ≠ "" then claims.nickname.getD ""
    else ""

/-- The audience extraction of `validateToken`: try the string form, then
the first element of the array form, else fail. -/
def getAudience (claims : TokenClaims) : Except String String :=
  match claims.aud with
  | some (.inl s) => .ok s
  | some (.inr (a :: _)) => .ok a
  | some (.inr []) => .error "audience not found in token"
  | none => .error "audience not found in token"

/-- Embeds the claim-validation stage of `validateToken` (auth0.go, after
the parse succeeds): audience check, slash-tolerant issuer check, subject
extraction, then the display-name fallbacks. -/
def validateClaims (cfg : Auth0Config) (claims : TokenClaims) :
    Except String Auth0User :=
  match getAudience claims with
  | .error e => .error e
  | .ok aud =>
    if aud ≠ cfg.Audience then
      .error ("audience mismatch: expected " ++ cfg.Audience ++ ", got "
        ++ aud)
    else
      match claims.iss with
      | none => .error "issuer not found in token"
      | some iss =>
        if iss ≠ ("https://" ++ cfg.Domain ++ "/") ∧
            iss ≠ ("https://" ++ cfg.Domain) then
          .error ("issuer mismatch: expected " ++ ("https://" ++ cfg.Domain
            ++ "/") ++ " or " ++ ("https://" ++ cfg.Domain) ++ ", got "
            ++ iss)
        else
          match claims.sub with
          | none => .error "sub (subject) not found in token"
          | some sub =>
            let email := claims.email.getD ""
            let name0 := extractNameFromClaims claims
            let name1 := if name0 = "" then email else name0
            let name2 := if name1 = "" then sub else name1
            .ok { Sub := sub, Email := email, Name := name2 }

/-- Outcome of the `jwt.Parse` stage of `validateToken` (key lookup
against the remote JWKS and signature verification are outside the
embedding, so this stage is abstracted as an oracle on the token
string). -/
inductive ParseOutcome where
  | failed (reason : String)
  | parsed (claims : TokenClaims)

/-- Embeds `validateToken` (auth0.go): the parse stage through the
oracle, then the claim checks. -/
def validateToken (cfg : Auth0Config) (parse : String → ParseOutcome)
    (tokenString : String) : Except String Auth0User :=
  match parse tokenString with
  | .failed reason => .error ("failed to parse token: " ++ reason)
  | .parsed claims => validateClaims cfg claims

/-- Outcome of the Auth0 middleware on one request. -/
inductive AuthResult where
  | next (user : Option Auth0User)
  | reject (status : Nat) (msg : String)
  deriving DecidableEq

/-- Embeds the `Auth0` middleware (auth0.go): disabled configuration is a
no-op; otherwise the Authorization header is required, must split into
`Bearer` plus a token, and the token must validate; `response.
Unauthorized` carries HTTP 401. -/
def Auth0 (cfg : Auth0Config) (parse : String → ParseOutcome)
    (authHeader : String) : AuthResult :=
  if !cfg.Enabled then .next none
  else if authHeader = "" then .reject 401 "Authorization header required"
  else if (goSplit ' ' authHeader).length ≠ 2 ∨
      (goSplit ' ' authHeader).getD 0 "" ≠ "Bearer" then
    .reject 401 "Bearer token required"
  else
    match validateToken cfg parse ((goSplit ' ' authHeader).getD 1 "") with
    | .error _ => .reject 401 "Invalid or expired token"
    | .ok user => .next (some user)

end Middleware

namespace Database

/-- The underlying `sql.DB` handle: what its one probe query
`QueryRow("SELECT 1").Scan(&result)` would return. -/
structure SqlDB where
  selectOneScan : Except String Int

/-- A non-nil `gorm.DB` value: the connection pool its `DB()` method
resolves (an unusable pool makes `DB()` return an error). -/
structure GormDB where
  connPool : Option SqlDB

/-- Outcome of running a Go function that may panic. -/
inductive GoOutcome (α : Type) where
  | panicked
  | ok (val : α)
  deriving DecidableEq

/-- The `db.DB()` call on a possibly nil `*gorm.DB` receiver: a nil
receiver dereferences `db.ConnPool` and panics; otherwise the pool is
returned or an invalid-db error. -/
def gormDB_DB (db : Option GormDB) : GoOutcome (Except String SqlDB) :=
  match db with
  | none => .panicked
  | some g =>
    match g.connPool with
    | some pool => .ok (.ok pool)
    | none => .ok (.error "invalid db")

/-- Embeds `HealthCheck` (database package): resolve the `sql.DB` from
the GORM handle, then run the `SELECT 1` probe; each failing step is
wrapped as a database-error `AppError`.  There is no nil guard before the
`db.DB()` call. -/
def HealthCheck (db : Option GormDB) :
    GoOutcome (Option GoErrors.AppError) :=
  match gormDB_DB db with
  | .panicked => .panicked
  | .ok (.error e) =>
    .ok (some (GoErrors.Wrap (some e) GoErrors.ErrCodeDatabaseError
      "failed to get underlying sql.DB"))
  | .ok (.ok sqlDB) =>
    match sqlDB.selectOneScan with
    | .error e =>
      .ok (some (GoErrors.Wrap (some e) GoErrors.ErrCodeDatabaseError
        "health check failed"))
    | .ok _ => .ok none

end Database

/-- Two integers with equal residues wrap to the same value. -/
theorem wrap64_congr {x y : Int} (h : x % (2 ^ 64) = y % (2 ^ 64)) :
    Response.wrap64 x = Response.wrap64 y := by
  unfold Response.wrap64
  rw [h]

/-- Values already inside the signed 64-bit range are fixed by the wrap. -/
theorem wrap64_eq_self {n : Int} (h1 : -(2 ^ 63) ≤ n) (h2 : n < 2 ^ 63) :
    Response.wrap64 n = n := by
  have e64 : (2 : Int) ^ 64 = 18446744073709551616 := by norm_num
  have e63 : (2 : Int) ^ 63 = 9223372036854775808 := by norm_num
  unfold Response.wrap64
  simp only [e63, e64] at h1 h2 ⊢
  split <;> omega

/-- The two chained wrapped operations of the totalPages numerator agree
with a single wrap of the mathematical value. -/
theorem goSub_goAdd_one (a b : Int) :
    Response.goSub (Response.goAdd a b) 1 = Response.wrap64 (a + b - 1) := by
  unfold Response.goSub Response.goAdd
  apply wrap64_congr
  have e64 : (2 : Int) ^ 64 = 18446744073709551616 := by norm_num
  have e63 : (2 : Int) ^ 63 = 9223372036854775808 := by norm_num
  unfold Response.wrap64
  simp only [e63, e64]
  split <;> omega

/-- Claim C6 counterexample: at total = 2 to the 63rd minus 1 and
pageSize = 2 the Go computation overflows and yields a negative
totalPages, while the mathematical ceiling is positive. -/
theorem c6_counterexample_total_pages_overflow :
    ((Response.Paginated (0 : Nat) 1 2 (2 ^ 63 - 1) "").2.data.map
      (fun pd => pd.pagination.totalPages)) = some (-(2 ^ 62)) ∧
    Response.specCeilTotalPages (2 ^ 63 - 1) 2 = 2 ^ 62 := by
  constructor
  · decide
  · unfold Response.specCeilTotalPages
    rw [Int.ceil_eq_iff]
    constructor <;> [skip; skip] <;> push_cast <;> norm_num

/-- Claim C6 (corrected): for positive total and pageSize whose sum stays
inside the signed 64-bit range, the totalPages value of a paginated
response equals the mathematical ceiling of total over pageSize, computed
as (total + pageSize - 1) / pageSize; without the range bound the Go
computation overflows (see the counterexample). -/
theorem c6_paginated_total_pages_is_ceil {δ : Type} (d : δ)
    (page pageSize total : Int) (rid : String)
    (htotal : 0 < total) (hpage : 0 < pageSize)
    (hbound : total + pageSize - 1 < 2 ^ 63) :
    ((Response.Paginated d page pageSize total rid).2.data.map
      (fun pd => pd.pagination.totalPages)) =
      some (Response.specCeilTotalPages total pageSize) ∧
    Response.specCeilTotalPages total pageSize =
      (total + pageSize - 1) / pageSize := by
  have hn0 : 0 ≤ total + pageSize - 1 := by omega
  have hq := Int.ediv_add_emod (total + pageSize - 1) pageSize
  have hr0 : 0 ≤ (total + pageSize - 1) % pageSize :=
    Int.emod_nonneg _ (by omega)
  have hrlt : (total + pageSize - 1) % pageSize < pageSize :=
    Int.emod_lt_of_pos _ hpage
  have hq0 : 0 ≤ (total + pageSize - 1) / pageSize :=
    Int.ediv_nonneg hn0 (le_of_lt hpage)
  have hqle : (total + pageSize - 1) / pageSize ≤ total + pageSize - 1 := by
    nlinarith [mul_nonneg hq0 (by linarith : (0 : Int) ≤ pageSize - 1)]
  have t1 : total ≤ pageSize * ((total + pageSize - 1) / pageSize) := by
    linarith
  have t2 : pageSize * ((total + pageSize - 1) / pageSize) - pageSize
      < total := by linarith
  have hpQ : (0 : ℚ) < ((pageSize : Int) : ℚ) := by exact_mod_cast hpage
  have hceil : Response.specCeilTotalPages total pageSize =
      (total + pageSize - 1) / pageSize := by
    unfold Response.specCeilTotalPages
    rw [Int.ceil_eq_iff]
    constructor
    · rw [lt_div_iff₀ hpQ]
      have hc : ((pageSize : ℚ)) * (((total + pageSize - 1) / pageSize
          : Int) : ℚ) - (pageSize : ℚ) < (total : ℚ) := by
        exact_mod_cast t2
      nlinarith [hc]
    · rw [div_le_iff₀ hpQ]
      have hc : (total : ℚ) ≤ ((pageSize : ℚ)) *
          (((total + pageSize - 1) / pageSize : Int) : ℚ) := by
        exact_mod_cast t1
      nlinarith [hc]
  have hmain : Response.paginatedTotalPages total pageSize =
      (total + pageSize - 1) / pageSize := by
    unfold Response.paginatedTotalPages Response.goDiv
    rw [goSub_goAdd_one]
    have h1 : Response.wrap64 (total + pageSize - 1) = total + pageSize - 1 :=
      wrap64_eq_self (by nlinarith [pow_pos (show (0:Int) < 2 by norm_num) 63])
        hbound
    rw [h1, Int.tdiv_eq_ediv hn0 (le_of_lt hpage)]
    exact wrap64_eq_self
      (by nlinarith [pow_pos (show (0:Int) < 2 by norm_num) 63])
      (lt_of_le_of_lt hqle hbound)
  refine ⟨?_, hceil⟩
  simp [Response.Paginated, hmain, hceil]

/-- Witness for C6 at total = 25, pageSize = 10: totalPages is 3. -/
theorem c6_paginated_total_pages_is_ceil_witness :
    (((Response.Paginated (0 : Nat) 1 10 25 "").2.data.map
      (fun pd => pd.pagination.totalPages)) =
      some (Response.specCeilTotalPages 25 10) ∧
     Response.specCeilTotalPages 25 10 = (25 + 10 - 1) / 10) ∧
    Response.specCeilTotalPages 25 10 = 3 := by
  refine ⟨c6_paginated_total_pages_is_ceil (0 : Nat) 1 10 25 ""
    (by norm_num) (by norm_num) (by norm_num), ?_⟩
  unfold Response.specCeilTotalPages
  rw [Int.ceil_eq_iff]
  constructor <;> push_cast <;> norm_num

/-- Claim C7 (confirmed): with an empty required-role list the role
middleware is the bare authentication check: it accepts exactly the
requests whose trimmed X-User-ID header is non-empty and rejects the
rest with the identical 403 response. -/
theorem c7_empty_role_list_is_require_auth (req : Middleware.RbacRequest) :
    Middleware.RequireAnyRole [] req = Middleware.RequireAuth req ∧
    (Middleware.RequireAnyRole [] req = .next ↔
      Middleware.goTrimSpace req.userID ≠ "") ∧
    (Middleware.goTrimSpace req.userID = "" →
      Middleware.RequireAnyRole [] req =
        .reject 403 "Authentication required") := by
  have h : Middleware.RequireAnyRole [] req = Middleware.RequireAuth req := by
    simp [Middleware.RequireAnyRole]
  refine ⟨h, ?_, fun he => ?_⟩
  · rw [h]
    by_cases he : Middleware.goTrimSpace req.userID = "" <;>
      simp [Middleware.RequireAuth, he]
  · rw [h]
    simp [Middleware.RequireAuth, he]

/-- Witness for C7: the empty-ID request is rejected exactly as by
RequireAuth and an authenticated request passes. -/
theorem c7_empty_role_list_is_require_auth_witness :
    Middleware.RequireAnyRole [] ⟨"", "", ""⟩ =
      .reject 403 "Authentication required" ∧
    Middleware.RequireAnyRole [] ⟨"user-1", "", ""⟩ = .next :=
  ⟨(c7_empty_role_list_is_require_auth ⟨"", "", ""⟩).2.2 (by decide),
   (c7_empty_role_list_is_require_auth ⟨"user-1", "", ""⟩).2.1.mpr
     (by decide)⟩

/-- Claim C10 (confirmed): when the required list is non-empty but every
entry fails the format check, the filtered required set is empty and the
two modes diverge on an authenticated request: all-of accepts, any-of
rejects with 403. -/
theorem c10_all_malformed_required_divergence
    (perms : List String) (req : Middleware.RbacRequest)
    (hne : perms ≠ [])
    (hbad : ∀ p ∈ perms, Middleware.permissionFormatMatch p = false)
    (hauth : ¬(Middleware.goTrimSpace req.userID = "")) :
    Middleware.RequireAllPermissions perms req = .next ∧
    Middleware.RequireAnyPermission perms req =
      .reject 403 "Insufficient permissions: required permission not found"
    := by
  have hfil : perms.filter Middleware.permissionFormatMatch = [] := by
    rw [List.filter_eq_nil_iff]
    intro a ha
    simp [hbad a ha]
  constructor
  · unfold Middleware.RequireAllPermissions
    rw [if_neg hne, if_neg hauth, hfil]
    simp [Middleware.missingPermissions]
  · unfold Middleware.RequireAnyPermission
    rw [if_neg hne, if_neg hauth, hfil]
    simp [Middleware.hasAnyPermission]

/-- Witness for C10 with required list [NOT_LOWERCASE] and an
authenticated request. -/
theorem c10_all_malformed_required_divergence_witness :
    Middleware.RequireAllPermissions ["NOT_LOWERCASE"] ⟨"user-1", "", ""⟩ =
      .next ∧
    Middleware.RequireAnyPermission ["NOT_LOWERCASE"] ⟨"user-1", "", ""⟩ =
      .reject 403 "Insufficient permissions: required permission not found"
    :=
  c10_all_malformed_required_divergence ["NOT_LOWERCASE"] ⟨"user-1", "", ""⟩
    (by decide) (by decide) (by decide)

/-- Claim C1 counterexample: the accept/reject decision of
RequireAnyPermission is not invariant under adding a non-matching string
to the required set: added to an empty required set it turns the
middleware from the authentication check (accept) into a filtered any-of
check over an empty filtered set (reject). -/
theorem c1_counterexample_empty_required_any :
    Middleware.permissionFormatMatch "INVALID_PERMISSION" = false ∧
    Middleware.RequireAnyPermission []
      ⟨"user-1", "", "hello:greeting:create"⟩ = .next ∧
    Middleware.RequireAnyPermission ["INVALID_PERMISSION"]
      ⟨"user-1", "", "hello:greeting:create"⟩ =
      .reject 403 "Insufficient permissions: required permission not found"
    := by
  decide

/-- Filtering ignores an inserted entry that fails the format check. -/
theorem filter_perm_middle (p : String)
    (hp : Middleware.permissionFormatMatch p = false) (a b : List String) :
    (a ++ p :: b).filter Middleware.permissionFormatMatch =
    (a ++ b).filter Middleware.permissionFormatMatch := by
  simp [List.filter_append, List.filter_cons, hp]

/-- Claim C1 (corrected): a permission string failing the format check is
filtered from both sets before comparison, so the decision is unchanged
by inserting or removing such a string in the user set (both modes) or in
the required set, as long as the required list does not switch between
empty and non-empty in the any-of mode; the example of the claim holds.
-/
theorem c1_invalid_permissions_filtered (p : String)
    (hp : Middleware.permissionFormatMatch p = false) :
    (∀ required u1 u2 : List String,
      Middleware.hasAnyPermission
          (required.filter Middleware.permissionFormatMatch)
          ((u1 ++ p :: u2).filter Middleware.permissionFormatMatch) =
        Middleware.hasAnyPermission
          (required.filter Middleware.permissionFormatMatch)
          ((u1 ++ u2).filter Middleware.permissionFormatMatch) ∧
      Middleware.missingPermissions
          (required.filter Middleware.permissionFormatMatch)
          ((u1 ++ p :: u2).filter Middleware.permissionFormatMatch) =
        Middleware.missingPermissions
          (required.filter Middleware.permissionFormatMatch)
          ((u1 ++ u2).filter Middleware.permissionFormatMatch)) ∧
    (∀ (l1 l2 : List String) (req : Middleware.RbacRequest),
      Middleware.RequireAllPermissions (l1 ++ p :: l2) req =
        Middleware.RequireAllPermissions (l1 ++ l2) req) ∧
    (∀ (l1 l2 : List String) (req : Middleware.RbacRequest), l1 ++ l2 ≠ [] →
      Middleware.RequireAnyPermission (l1 ++ p :: l2) req =
        Middleware.RequireAnyPermission (l1 ++ l2) req) ∧
    Middleware.RequireAnyPermission ["hello:greeting:create"]
      ⟨"user-1", "", "hello:greeting:create,INVALID_PERMISSION"⟩ = .next ∧
    Middleware.RequireAllPermissions ["hello:greeting:create"]
      ⟨"user-1", "", "hello:greeting:create,INVALID_PERMISSION"⟩ = .next := by
  refine ⟨?_, ?_, ?_, by decide, by decide⟩
  · intro required u1 u2
    constructor <;> rw [filter_perm_middle p hp u1 u2]
  · intro l1 l2 req
    have h1 : l1 ++ p :: l2 ≠ [] := by simp
    by_cases h2 : l1 ++ l2 = []
    · by_cases hauth : Middleware.goTrimSpace req.userID = "" <;>
        simp [Middleware.RequireAllPermissions, h1, h2, hauth,
          Middleware.RequireAuth, filter_perm_middle p hp l1 l2,
          Middleware.missingPermissions]
    · simp only [Middleware.RequireAllPermissions, if_neg h1, if_neg h2,
        filter_perm_middle p hp l1 l2]
  · intro l1 l2 req h2
    have h1 : l1 ++ p :: l2 ≠ [] := by simp
    simp only [Middleware.RequireAnyPermission, if_neg h1, if_neg h2,
      filter_perm_middle p hp l1 l2]

/-- Witness for C1: inserting INVALID_PERMISSION into a singleton
required list leaves the any-of decision unchanged, and the example of
the claim is accepted. -/
theorem c1_invalid_permissions_filtered_witness :
    Middleware.RequireAnyPermission
        (["hello:greeting:create"] ++ "INVALID_PERMISSION" :: [])
        ⟨"user-1", "", "hello:greeting:create"⟩ =
      Middleware.RequireAnyPermission (["hello:greeting:create"] ++ [])
        ⟨"user-1", "", "hello:greeting:create"⟩ ∧
    Middleware.RequireAnyPermission ["hello:greeting:create"]
      ⟨"user-1", "", "hello:greeting:create,INVALID_PERMISSION"⟩ = .next :=
  ⟨(c1_invalid_permissions_filtered "INVALID_PERMISSION" (by decide)).2.2.1
      ["hello:greeting:create"] [] ⟨"user-1", "", "hello:greeting:create"⟩
      (by decide),
   (c1_invalid_permissions_filtered "INVALID_PERMISSION"
      (by decide)).2.2.2.1⟩

/-- Claim C4 counterexample: `Health` with an unhealthy status emits an
envelope with `success = false` that still carries the data map and no
error object, so the success flag does not determine that exactly one of
data and error is populated. -/
theorem c4_counterexample_unhealthy_health_envelope :
    (Response.Health "down" (none : Option Unit) "").2.success = false ∧
    (Response.Health "down" (none : Option Unit) "").2.data ≠ none ∧
    (Response.Health "down" (none : Option Unit) "").2.error = none := by
  refine ⟨rfl, ?_, rfl⟩
  simp [Response.Health]

/-- Claim C4 (corrected): the success constructors (`Success`,
`SuccessWithMessage`, `Created`, `Paginated`) emit `success = true` with
the data payload and no error object, and the error constructors
(`Error`, `ErrorWithMessage`) emit `success = false` with an error object
and no data; `Health` is the exception: it always carries its data map
and never an error object, with its success flag tracking whether the
status is "healthy" or "ok". -/
theorem c4_envelope_data_error_exclusive {δ γ : Type} (d : δ)
    (err : Response.GoErr) (msg status rid : String) (checks : Option γ)
    (page pageSize total : Int) :
    ((Response.Success d rid).2.success = true ∧
     (Response.Success d rid).2.data = some d ∧
     (Response.Success d rid).2.error = none) ∧
    ((Response.SuccessWithMessage msg d rid).2.success = true ∧
     (Response.SuccessWithMessage msg d rid).2.data = some d ∧
     (Response.SuccessWithMessage msg d rid).2.error = none) ∧
    ((Response.Created d rid).2.success = true ∧
     (Response.Created d rid).2.data = some d ∧
     (Response.Created d rid).2.error = none) ∧
    ((Response.Paginated d page pageSize total rid).2.success = true ∧
     (Response.Paginated d page pageSize total rid).2.data.isSome = true ∧
     (Response.Paginated d page pageSize total rid).2.error = none) ∧
    ((Response.Error (δ := δ) err rid).2.success = false ∧
     (Response.Error (δ := δ) err rid).2.data = none ∧
     (Response.Error (δ := δ) err rid).2.error.isSome = true) ∧
    ((Response.ErrorWithMessage (δ := δ) err msg rid).2.success = false ∧
     (Response.ErrorWithMessage (δ := δ) err msg rid).2.data = none ∧
     (Response.ErrorWithMessage (δ := δ) err msg rid).2.error.isSome = true) ∧
    ((Response.Health status checks rid).2.data = some
       { status := status, checks := checks } ∧
     (Response.Health status checks rid).2.error = none ∧
     ((Response.Health status checks rid).2.success = true ↔
       (status = "healthy" ∨ status = "ok"))) := by
  refine ⟨⟨rfl, rfl, rfl⟩, ⟨rfl, rfl, rfl⟩, ⟨rfl, rfl, rfl⟩,
    ⟨rfl, rfl, rfl⟩, ⟨?_, ?_, ?_⟩, ⟨?_, ?_, ?_⟩, ?_, ?_, ?_⟩ <;>
    first
      | (cases err <;> simp [Response.Error, Response.ErrorWithMessage])
      | (by_cases h : status = "healthy" ∨ status = "ok" <;>
          simp [Response.Health, h])

/-- Claim C2 (confirmed): the error-code-to-HTTP-status mapping is total
with a 500 default: every `AppError` built by `New`, `NewWithDetails`,
`Wrap` or `WrapWithDetails` carries `getHTTPStatus code`, and for every
code outside the recognized code constants that status is 500 and the
derived base message is the internal-error message. -/
theorem c2_unrecognized_code_maps_to_internal
    (code : GoErrors.ErrorCode) (msg details cause : String)
    (h : code ∉ GoErrors.recognizedCodes) :
    GoErrors.getHTTPStatus code = 500 ∧
    GoErrors.getBaseMessage code = GoErrors.MsgInternal ∧
    (GoErrors.New code msg).HTTPStatus = 500 ∧
    (GoErrors.NewWithDetails code msg details).HTTPStatus = 500 ∧
    (GoErrors.Wrap (some cause) code msg).HTTPStatus = 500 ∧
    (GoErrors.WrapWithDetails (some cause) code msg details).HTTPStatus = 500 := by
  simp only [GoErrors.recognizedCodes, List.mem_cons, List.not_mem_nil,
    or_false, not_or] at h
  obtain ⟨h1, h2, h3, h4, h5, h6, h7, h8, h9, h10, h11, h12, h13, h14, h15,
    h16, h17⟩ := h
  refine ⟨?_, ?_, ?_, ?_, ?_, ?_⟩ <;>
    simp [GoErrors.getHTTPStatus, GoErrors.getBaseMessage, GoErrors.New,
      GoErrors.NewWithDetails, GoErrors.Wrap, GoErrors.WrapWithDetails,
      h1, h2, h3, h4, h5, h6, h7, h8, h9, h10, h11, h12, h13, h14, h15,
      h16, h17]

/-- Witness for C2 at the concrete unrecognized code SOME_UNKNOWN_CODE. -/
theorem c2_unrecognized_code_maps_to_internal_witness :
    GoErrors.getHTTPStatus "SOME_UNKNOWN_CODE" = 500 ∧
    GoErrors.getBaseMessage "SOME_UNKNOWN_CODE" = GoErrors.MsgInternal ∧
    (GoErrors.New "SOME_UNKNOWN_CODE" "m").HTTPStatus = 500 ∧
    (GoErrors.NewWithDetails "SOME_UNKNOWN_CODE" "m" "d").HTTPStatus = 500 ∧
    (GoErrors.Wrap (some "c") "SOME_UNKNOWN_CODE" "m").HTTPStatus = 500 ∧
    (GoErrors.WrapWithDetails (some "c") "SOME_UNKNOWN_CODE" "m" "d").HTTPStatus
      = 500 :=
  c2_unrecognized_code_maps_to_internal "SOME_UNKNOWN_CODE" "m" "d" "c"
    (by decide)

/-- Claim C5 (code_bug): `HealthCheck` called on a nil connection handle
does not return a reported failure: the unguarded `db.DB()` method call
dereferences the nil receiver and the process panics, contradicting the
spec and the repository test that expects an error mentioning a nil
database. -/
theorem c5_health_check_nil_panics :
    Database.HealthCheck none = Database.GoOutcome.panicked := rfl

/-- Claim C3 counterexample: with the middleware enabled, a request with
no Authorization header is rejected with the message naming the missing
header, not with the generic invalid-or-expired-token message. -/
theorem c3_counterexample_missing_header_message :
    Middleware.Auth0 ⟨true, "tenant.example.com", "api-aud"⟩
      (fun _ => .failed "boom") "" =
      .reject 401 "Authorization header required" ∧
    "Authorization header required" ≠ "Invalid or expired token" := by
  decide

/-- Claim C3 (corrected): with the middleware enabled every failure is
HTTP 401; a missing header says the header is required, a malformed
header says a bearer token is required, and every token-validation
failure (parse, signature, audience or issuer, all reaching the error
branch of validateToken) yields the one generic invalid-or-expired-token
message, independent of the reason. -/
theorem c3_auth0_failures_all_401
    (cfg : Middleware.Auth0Config) (parse : String → Middleware.ParseOutcome)
    (hd : String) (he : cfg.Enabled = true) :
    (∀ s m, Middleware.Auth0 cfg parse hd = .reject s m → s = 401) ∧
    (hd = "" → Middleware.Auth0 cfg parse hd =
      .reject 401 "Authorization header required") ∧
    (hd ≠ "" →
      ((Middleware.goSplit ' ' hd).length ≠ 2 ∨
        (Middleware.goSplit ' ' hd).getD 0 "" ≠ "Bearer") →
      Middleware.Auth0 cfg parse hd = .reject 401 "Bearer token required") ∧
    (∀ e, hd ≠ "" →
      ¬((Middleware.goSplit ' ' hd).length ≠ 2 ∨
        (Middleware.goSplit ' ' hd).getD 0 "" ≠ "Bearer") →
      Middleware.validateToken cfg parse
        ((Middleware.goSplit ' ' hd).getD 1 "") = .error e →
      Middleware.Auth0 cfg parse hd =
        .reject 401 "Invalid or expired token") := by
  have hrw : Middleware.Auth0 cfg parse hd =
      (if hd = "" then .reject 401 "Authorization header required"
       else if (Middleware.goSplit ' ' hd).length ≠ 2 ∨
           (Middleware.goSplit ' ' hd).getD 0 "" ≠ "Bearer" then
         .reject 401 "Bearer token required"
       else
         match Middleware.validateToken cfg parse
             ((Middleware.goSplit ' ' hd).getD 1 "") with
         | .error _ => .reject 401 "Invalid or expired token"
         | .ok user => .next (some user)) := by
    simp [Middleware.Auth0, he]
  refine ⟨?_, ?_, ?_, ?_⟩
  · intro s m hsm
    rw [hrw] at hsm
    by_cases h1 : hd = ""
    · rw [if_pos h1] at hsm
      simp only [Middleware.AuthResult.reject.injEq] at hsm
      exact hsm.1.symm
    · rw [if_neg h1] at hsm
      by_cases h2 : (Middleware.goSplit ' ' hd).length ≠ 2 ∨
          (Middleware.goSplit ' ' hd).getD 0 "" ≠ "Bearer"
      · rw [if_pos h2] at hsm
        simp only [Middleware.AuthResult.reject.injEq] at hsm
        exact hsm.1.symm
      · rw [if_neg h2] at hsm
        cases hval : Middleware.validateToken cfg parse
            ((Middleware.goSplit ' ' hd).getD 1 "") with
        | error e =>
          rw [hval] at hsm
          simp only [Middleware.AuthResult.reject.injEq] at hsm
          exact hsm.1.symm
        | ok u =>
          rw [hval] at hsm
          simp at hsm
  · intro h1
    rw [hrw, if_pos h1]
  · intro h1 h2
    rw [hrw, if_neg h1, if_pos h2]
  · intro e h1 h2 hval
    rw [hrw, if_neg h1, if_neg h2, hval]

/-- Witness for C3 at a concrete well-formed header whose token fails to
parse, plus the concrete missing-header case. -/
theorem c3_auth0_failures_all_401_witness :
    Middleware.Auth0 ⟨true, "tenant.example.com", "api-aud"⟩
      (fun _ => .failed "bad signature") "Bearer sometoken" =
      .reject 401 "Invalid or expired token" ∧
    Middleware.Auth0 ⟨true, "tenant.example.com", "api-aud"⟩
      (fun _ => .failed "bad signature") "Token abc" =
      .reject 401 "Bearer token required" :=
  ⟨(c3_auth0_failures_all_401 ⟨true, "tenant.example.com", "api-aud"⟩
      (fun _ => .failed "bad signature") "Bearer sometoken" rfl).2.2.2
      "failed to parse token: bad signature" (by decide) (by decide) rfl,
   (c3_auth0_failures_all_401 ⟨true, "tenant.example.com", "api-aud"⟩
      (fun _ => .failed "bad signature") "Token abc" rfl).2.2.1
      (by decide) (by decide)⟩

/-- Claim C9 (confirmed): with audience matching and a subject present,
claim validation succeeds exactly when the issuer claim equals the
configured domain in URL form with or without the trailing slash. -/
theorem c9_issuer_slash_tolerant
    (cfg : Middleware.Auth0Config) (cl : Middleware.TokenClaims)
    (iss sub : String)
    (haud : Middleware.getAudience cl = .ok cfg.Audience)
    (hiss : cl.iss = some iss) (hsub : cl.sub = some sub) :
    (∃ u, Middleware.validateClaims cfg cl = Except.ok u) ↔
      (iss = "https://" ++ cfg.Domain ++ "/" ∨
       iss = "https://" ++ cfg.Domain) := by
  by_cases hc : iss ≠ ("https://" ++ cfg.Domain ++ "/") ∧
      iss ≠ ("https://" ++ cfg.Domain)
  · constructor
    · rintro ⟨u, hu⟩
      simp [Middleware.validateClaims, haud, hiss, hsub, hc] at hu
    · rintro (h | h)
      · exact absurd h hc.1
      · exact absurd h hc.2
  · constructor
    · intro _
      by_contra hno
      push_neg at hno
      exact hc hno
    · intro _
      refine ⟨Middleware.Auth0User.mk sub (cl.email.getD "")
        (if (if Middleware.extractNameFromClaims cl = "" then
            cl.email.getD "" else Middleware.extractNameFromClaims cl) = ""
         then sub
         else (if Middleware.extractNameFromClaims cl = "" then
            cl.email.getD "" else Middleware.extractNameFromClaims cl)), ?_⟩
      simp [Middleware.validateClaims, haud, hiss, hsub, hc]

/-- Witness for C9: concrete claims whose issuer lacks the trailing slash
validate, and a foreign issuer is rejected. -/
theorem c9_issuer_slash_tolerant_witness :
    (∃ u, Middleware.validateClaims ⟨true, "tenant.example.com", "api"⟩
      ⟨some (.inl "api"), some "https://tenant.example.com",
       some "auth0|123", none, none, none, none, none⟩ = Except.ok u) ∧
    ¬(∃ u, Middleware.validateClaims ⟨true, "tenant.example.com", "api"⟩
      ⟨some (.inl "api"), some "https://evil.example.com",
       some "auth0|123", none, none, none, none, none⟩ = Except.ok u) :=
  ⟨(c9_issuer_slash_tolerant ⟨true, "tenant.example.com", "api"⟩
      ⟨some (.inl "api"), some "https://tenant.example.com",
       some "auth0|123", none, none, none, none, none⟩
      "https://tenant.example.com" "auth0|123" rfl rfl rfl).mpr
      (Or.inr (by decide)),
   fun h => absurd ((c9_issuer_slash_tolerant
      ⟨true, "tenant.example.com", "api"⟩
      ⟨some (.inl "api"), some "https://evil.example.com",
       some "auth0|123", none, none, none, none, none⟩
      "https://evil.example.com" "auth0|123" rfl rfl rfl).mp h)
      (by decide)⟩

/-- Appending to a non-empty string stays non-empty. -/
theorem string_append_ne_empty_left (a b : String) (h : a ≠ "") :
    a ++ b ≠ "" := by
  intro he
  apply h
  cases a with
  | mk l =>
    cases b with
    | mk m =>
      have hd : l ++ m = [] := congrArg String.data he
      have hl : l = [] := by
        cases l with
        | nil => rfl
        | cons x xs => simp at hd
      subst hl
      rfl

/-- Claim C8 (confirmed): under passing audience, issuer and subject
checks, the display name produced by token validation follows the
priority chain: a non-empty name claim wins; otherwise given and family
name (joined by one space when both are present, else whichever is
non-empty); otherwise nickname; otherwise email; otherwise the subject.
-/
theorem c8_display_name_priority
    (cfg : Middleware.Auth0Config) (cl : Middleware.TokenClaims)
    (sub : String)
    (haud : Middleware.getAudience cl = .ok cfg.Audience)
    (hiss : cl.iss = some ("https://" ++ cfg.Domain))
    (hsub : cl.sub = some sub) :
    (∀ n, cl.name = some n → n ≠ "" →
      Middleware.validateClaims cfg cl =
        Except.ok ⟨sub, cl.email.getD "", n⟩) ∧
    (cl.name.getD "" = "" → ∀ g f, cl.given_name = some g → g ≠ "" →
      cl.family_name = some f → f ≠ "" →
      Middleware.validateClaims cfg cl =
        Except.ok ⟨sub, cl.email.getD "", g ++ " " ++ f⟩) ∧
    (cl.name.getD "" = "" → cl.family_name.getD "" = "" →
      ∀ g, cl.given_name = some g → g ≠ "" →
      Middleware.validateClaims cfg cl =
        Except.ok ⟨sub, cl.email.getD "", g⟩) ∧
    (cl.name.getD "" = "" → cl.given_name.getD "" = "" →
      ∀ f, cl.family_name = some f → f ≠ "" →
      Middleware.validateClaims cfg cl =
        Except.ok ⟨sub, cl.email.getD "", f⟩) ∧
    (cl.name.getD "" = "" → cl.given_name.getD "" = "" →
      cl.family_name.getD "" = "" → ∀ k, cl.nickname = some k → k ≠ "" →
      Middleware.validateClaims cfg cl =
        Except.ok ⟨sub, cl.email.getD "", k⟩) ∧
    (cl.name.getD "" = "" → cl.given_name.getD "" = "" →
      cl.family_name.getD "" = "" → cl.nickname.getD "" = "" →
      ∀ e, cl.email = some e → e ≠ "" →
      Middleware.validateClaims cfg cl = Except.ok ⟨sub, e, e⟩) ∧
    (cl.name.getD "" = "" → cl.given_name.getD "" = "" →
      cl.family_name.getD "" = "" → cl.nickname.getD "" = "" →
      cl.email.getD "" = "" →
      Middleware.validateClaims cfg cl = Except.ok ⟨sub, "", sub⟩) := by
  have hred : Middleware.validateClaims cfg cl =
      Except.ok (Middleware.Auth0User.mk sub (cl.email.getD "")
        (if (if Middleware.extractNameFromClaims cl = "" then
            cl.email.getD "" else Middleware.extractNameFromClaims cl) = ""
         then sub
         else (if Middleware.extractNameFromClaims cl = "" then
            cl.email.getD "" else Middleware.extractNameFromClaims cl))) := by
    have hc : ¬(("https://" ++ cfg.Domain : String) ≠
        ("https://" ++ cfg.Domain ++ "/") ∧
        ("https://" ++ cfg.Domain : String) ≠ ("https://" ++ cfg.Domain)) :=
      fun h => h.2 rfl
    simp [Middleware.validateClaims, haud, hiss, hsub, hc]
  refine ⟨?_, ?_, ?_, ?_, ?_, ?_, ?_⟩
  · intro n hn hne
    have hext : Middleware.extractNameFromClaims cl = n := by
      simp [Middleware.extractNameFromClaims, hn, hne]
    rw [hred, hext]
    simp [hne]
  · intro hname g f hg hgne hf hfne
    have hext : Middleware.extractNameFromClaims cl = g ++ " " ++ f := by
      simp [Middleware.extractNameFromClaims, hname, hg, hgne, hf, hfne]
    have hne2 : g ++ " " ++ f ≠ "" :=
      string_append_ne_empty_left _ _ (string_append_ne_empty_left _ _ hgne)
    rw [hred, hext]
    simp [hne2]
  · intro hname hfam g hg hgne
    have hext : Middleware.extractNameFromClaims cl = g := by
      simp [Middleware.extractNameFromClaims, hname, hfam, hg, hgne]
    rw [hred, hext]
    simp [hgne]
  · intro hname hgiven f hf hfne
    have hext : Middleware.extractNameFromClaims cl = f := by
      simp [Middleware.extractNameFromClaims, hname, hgiven, hf, hfne]
    rw [hred, hext]
    simp [hfne]
  · intro hname hgiven hfam k hk hkne
    have hext : Middleware.extractNameFromClaims cl = k := by
      simp [Middleware.extractNameFromClaims, hname, hgiven, hfam, hk, hkne]
    rw [hred, hext]
    simp [hkne]
  · intro hname hgiven hfam hnick e he hene
    have hext : Middleware.extractNameFromClaims cl = "" := by
      simp [Middleware.extractNameFromClaims, hname, hgiven, hfam, hnick]
    rw [hred, hext]
    simp [he, hene]
  · intro hname hgiven hfam hnick hemail
    have hext : Middleware.extractNameFromClaims cl = "" := by
      simp [Middleware.extractNameFromClaims, hname, hgiven, hfam, hnick]
    rw [hred, hext]
    simp [hemail]

/-- Witness for C8: a given+family claims set resolves to the joined
name and a bare claims set falls back to the subject. -/
theorem c8_display_name_priority_witness :
    Middleware.validateClaims ⟨true, "tenant.example.com", "api"⟩
      ⟨some (.inl "api"), some "https://tenant.example.com", some "auth0|7",
       none, some "Ada", some "Lovelace", some "nick",
       some "ada@example.com"⟩ =
      Except.ok ⟨"auth0|7", "ada@example.com", "Ada Lovelace"⟩ ∧
    Middleware.validateClaims ⟨true, "tenant.example.com", "api"⟩
      ⟨some (.inl "api"), some "https://tenant.example.com", some "auth0|7",
       none, none, none, none, none⟩ =
      Except.ok ⟨"auth0|7", "", "auth0|7"⟩ :=
  ⟨(c8_display_name_priority ⟨true, "tenant.example.com", "api"⟩
      ⟨some (.inl "api"), some "https://tenant.example.com", some "auth0|7",
       none, some "Ada", some "Lovelace", some "nick",
       some "ada@example.com"⟩ "auth0|7" rfl (by decide) rfl).2.1
      rfl "Ada" "Lovelace" rfl (by decide) rfl (by decide),
   (c8_display_name_priority ⟨true, "tenant.example.com", "api"⟩
      ⟨some (.inl "api"), some "https://tenant.example.com", some "auth0|7",
       none, none, none, none, none⟩ "auth0|7" rfl (by decide)
      rfl).2.2.2.2.2.2 rfl rfl rfl rfl rfl⟩
